import Mathlib

/-!
Shallow embedding of `src/graph1.py` (repository `deedf/covid_data`).

The script builds three per-age-group snapshots (deaths, hospitalizations,
vaccine adverse-effect symptoms) at two dates and renders the difference.
We embed the pure data-processing core:

* the `AGE_BAR_DICT` table (lines 42-61) and dictionary lookup into it
  (line 118); a missing key raises `KeyError` in Python, modelled here as
  an `Option` result of `none`;
* the snapshot extraction `_get_all_data` (lines 72-101): ISO-week /
  ISO-date key computation, row filtering, and pandas
  `set_index(...)[...].groupby(level=0).sum()`, which yields a label-sorted
  series mapping each surviving label to the sum of its `sumTotal` values;
* the differencing step of `_build_graph` (lines 109-111): pandas
  `Series` subtraction, which aligns on the sorted union of the two
  indexes and produces a missing value (NaN, modelled as `none`) for any
  label present in only one operand;
* the render-stage loop of `_build_graph` (lines 116-120) as far as it
  consumes the diff: the per-key `AGE_BAR_DICT[age]` lookups.

Python's `datetime.date.isocalendar` and `isoformat` (standard library,
called by the script on lines 75-76 and 92) are embedded faithfully from
their documented ISO-8601 semantics / CPython implementation.
-/

/-- Python `datetime.date`: a proleptic-Gregorian calendar date. -/
structure PyDate where
  year : Int
  month : Nat
  day : Nat
deriving DecidableEq

/-- Gregorian leap-year test, as in CPython `datetime._is_leap`. -/
def isLeap (y : Int) : Bool := y % 4 == 0 && (y % 100 != 0 || y % 400 == 0)

/-- Number of days in month `m` of year `y` (CPython `_days_in_month`). -/
def daysInMonth (y : Int) (m : Nat) : Int :=
  if m == 2 then (if isLeap y then 29 else 28)
  else if m == 4 || m == 6 || m == 9 || m == 11 then 30 else 31

/-- Number of days in year `y` strictly before month `m` (CPython `_days_before_month`). -/
def daysBeforeMonth (y : Int) : Nat → Int
  | 0 => 0
  | 1 => 0
  | m + 1 => daysBeforeMonth y m + daysInMonth y m

/-- Number of days before January 1 of year `y` (CPython `_days_before_year`). -/
def daysBeforeYear (y : Int) : Int :=
  let p := y - 1
  p * 365 + p.fdiv 4 - p.fdiv 100 + p.fdiv 400

/-- Proleptic Gregorian ordinal of a date, day 1 = 0001-01-01 (CPython `_ymd2ord`). -/
def toOrdinal (d : PyDate) : Int :=
  daysBeforeYear d.year + daysBeforeMonth d.year d.month + d.day

/-- Ordinal of the Monday starting ISO week 1 of year `y` (CPython `_isoweek1monday`). -/
def isoweek1monday (y : Int) : Int :=
  let firstday := daysBeforeYear y + 1
  let firstweekday := (firstday + 6) % 7
  let week1monday := firstday - firstweekday
  if firstweekday > 3 then week1monday + 7 else week1monday

/-- Python `date.isocalendar`: (ISO year, ISO week 1-53, ISO weekday 1-7). -/
def isocalendar (d : PyDate) : Int × Int × Int :=
  let today := toOrdinal d
  let week := (today - isoweek1monday d.year).fdiv 7
  let wday := (today - isoweek1monday d.year).fmod 7
  if week < 0 then
    let year := d.year - 1
    ((year), (today - isoweek1monday year).fdiv 7 + 1,
      (today - isoweek1monday year).fmod 7 + 1)
  else if week ≥ 52 ∧ today ≥ isoweek1monday (d.year + 1) then
    (d.year + 1, 1, wday + 1)
  else
    (d.year, week + 1, wday + 1)

/-- ISO week-numbering year of a date: `isocalendar[0]`. -/
def isoYear (d : PyDate) : Int := (isocalendar d).1

/-- ISO week number of a date: `isocalendar[1]`. -/
def isoWeek (d : PyDate) : Int := (isocalendar d).2.1

/-- Python `int(...)` on a string of decimal digits: fold the code points,
digit by digit. -/
def parseNat (s : String) : Nat :=
  s.data.foldl (fun acc c => acc * 10 + (c.toNat - 48)) 0

/-- Line 76: `int(str(iso_calendar[0]) + str(iso_calendar[1]))` — the weekly
series date key, string concatenation of ISO year and ISO week parsed back
to a number (no zero padding of the week part). -/
def dateIso (d : PyDate) : Nat :=
  parseNat ((toString (isoYear d)) ++ toString (isoWeek d))

/-- Left-pad the decimal representation of `n` with zeros to width `w`. -/
def padNat (n : Nat) (w : Nat) : String :=
  String.mk (List.replicate (w - (toString n).length) '0') ++ toString n

/-- Python `date.isoformat`: the `YYYY-MM-DD` string of a date (year shown
unpadded-sign-free for the CE years the script uses). -/
def PyDate.isoformat (d : PyDate) : String :=
  padNat d.year.toNat 4 ++ "-" ++ padNat d.month 2 ++ "-" ++ padNat d.day 2

/-- Line 32: `START_DATE = date(2021, 3, 23)`. -/
def START_DATE : PyDate := ⟨2021, 3, 23⟩

/-- Line 33: `END_DATE = date(2022, 4, 5)`. -/
def END_DATE : PyDate := ⟨2022, 4, 5⟩

/-- Lines 42-61: the `AGE_BAR_DICT` table mapping each raw age-group label
to its `(low, high)` bar interval. -/
def AGE_BAR_DICT : List (String × (Int × Int)) :=
  [("0 - 9", (0, 9)),
   ("10 - 19", (10, 19)),
   ("20 - 29", (20, 29)),
   ("30 - 39", (30, 39)),
   ("40 - 49", (40, 49)),
   ("50 - 59", (50, 59)),
   ("60 - 69", (60, 69)),
   ("70 - 79", (70, 79)),
   ("80+", (80, 89)),
   ("Unbekannt", (90, 99)),
   ("0 - 1", (0, 1)),
   ("12 - 17", (12, 17)),
   ("18 - 44", (18, 44)),
   ("2 - 11", (2, 11)),
   ("45 - 64", (45, 64)),
   ("65 - 74", (65, 74)),
   ("75+", (75, 89)),
   ("unknown", (90, 99))]

/-- Python dictionary lookup `AGE_BAR_DICT[label]` (line 118); `none` models
the `KeyError` raised for a label absent from the table — the
`ReconciliationError` of the specification. -/
def ageBarResolve (label : String) : Option (Int × Int) :=
  (AGE_BAR_DICT.find? (fun p => p.1 == label)).map Prod.snd

/-- One row of the weekly death / hospitalization CSVs, with the columns
`_get_all_data` reads (lines 78-88). -/
structure WeeklyRow where
  datum : Nat
  geoRegion : String
  altersklasse_covid19 : String
  sumTotal : Int
deriving DecidableEq

/-- One row of the daily vaccine-symptoms CSV, with the columns
`_get_all_data` reads (lines 89-100). -/
structure SymptomRow where
  date : String
  geoRegion : String
  vaccine : String
  age_group : String
  severity : String
  sumTotal : Int
deriving DecidableEq

/-- First-match association-list lookup, the `series[key]` access pattern. -/
def lookupKV {α : Type} (l : List (String × α)) (k : String) : Option α :=
  (l.find? (fun p => p.1 == k)).map Prod.snd

/-- Lexicographic comparison of two code-point sequences, the order Python
uses on `str` (and hence pandas uses to sort an object index). -/
def charListLe : List Char → List Char → Bool
  | [], _ => true
  | _ :: _, [] => false
  | a :: as, b :: bs =>
    if a.toNat < b.toNat then true
    else if b.toNat < a.toNat then false
    else charListLe as bs

/-- Python string comparison `a <= b`: code-point lexicographic. -/
def strLe (a b : String) : Bool := charListLe a.data b.data

/-- The string order as a relation, for use with `List.insertionSort`. -/
def SLe (a b : String) : Prop := strLe a b = true

instance : DecidableRel SLe :=
  fun a b => inferInstanceAs (Decidable (strLe a b = true))

/-- Sort a list of labels ascending, as pandas does for a grouped index. -/
def sortKeys (ls : List String) : List String := List.insertionSort SLe ls

/-- Pandas `set_index(label)[value].groupby(level=0).sum()`: the distinct
labels, sorted ascending, each paired with the sum of its values. -/
def groupSum (pairs : List (String × Int)) : List (String × Int) :=
  (sortKeys (pairs.map Prod.fst).dedup).map
    (fun l => (l, ((pairs.filter (fun p => p.1 == l)).map Prod.snd).sum))

/-- Lines 78-82 / 84-88: the rows of a weekly series surviving the filter
`(p["datum"] == date_iso) & (p["geoRegion"] == "CHFL")`. -/
def weeklySurvivors (rows : List WeeklyRow) (d : PyDate) : List WeeklyRow :=
  rows.filter (fun r => r.datum == dateIso d && r.geoRegion == "CHFL")

/-- Lines 78-82 / 84-88: a weekly-series snapshot — filter, index by
`altersklasse_covid19`, group and sum `sumTotal`. The death and
hospitalization extractions are textually identical in the source. -/
def weeklySnapshot (rows : List WeeklyRow) (d : PyDate) : List (String × Int) :=
  groupSum ((weeklySurvivors rows d).map (fun r => (r.altersklasse_covid19, r.sumTotal)))

/-- Lines 78-82: `death_data`, the weekly-series extraction applied to the
death rows. -/
def death_data : List WeeklyRow → PyDate → List (String × Int) := weeklySnapshot

/-- Lines 84-88: `hosp_data`, the textually identical weekly-series
extraction applied to the hospitalization rows. -/
def hosp_data : List WeeklyRow → PyDate → List (String × Int) := weeklySnapshot

/-- Lines 89-100: the symptom rows surviving the filter, expressed against
an arbitrary date-key string. -/
def symptomSurvivorsByKey (rows : List SymptomRow) (key : String) : List SymptomRow :=
  rows.filter (fun r =>
    r.date == key && r.geoRegion == "CHFL" && r.vaccine == "all"
      && r.age_group != "all" && r.severity == "all")

/-- Symptom snapshot against an arbitrary date-key string: filter, index by
`age_group`, group and sum `sumTotal`. -/
def symptomSnapshotByKey (rows : List SymptomRow) (key : String) : List (String × Int) :=
  groupSum ((symptomSurvivorsByKey rows key).map (fun r => (r.age_group, r.sumTotal)))

/-- Lines 89-100: the symptom-series snapshot of `_get_all_data` — the
filter compares `p["date"]` with `at_date.isoformat()`, alongside
`geoRegion == "CHFL"`, `vaccine == "all"`, `age_group != "all"`,
`severity == "all"`. -/
def symptom_data (rows : List SymptomRow) (at_date : PyDate) : List (String × Int) :=
  groupSum ((rows.filter (fun r =>
    r.date == at_date.isoformat && r.geoRegion == "CHFL" && r.vaccine == "all"
      && r.age_group != "all" && r.severity == "all")).map
    (fun r => (r.age_group, r.sumTotal)))

/-- Line 110: pandas `Series` subtraction `end - start`. The result is
indexed by the sorted union of the two label sets; a label present in both
maps to the difference of its counts, a label present in only one operand
maps to NaN, modelled as `none`. -/
def seriesSub (start e : List (String × Int)) : List (String × Option Int) :=
  (sortKeys ((start.map Prod.fst) ++ (e.map Prod.fst)).dedup).map
    (fun k => (k,
      match lookupKV start k, lookupKV e k with
      | some a, some b => some (b - a)
      | _, _ => none))

/-- Lines 116-120 as far as they consume a diff series: iterate its keys in
order and look each up in `AGE_BAR_DICT`; the whole pass is `none` as soon
as one key is absent (the `KeyError` at line 118). -/
def resolveCounts : List (String × Option Int) → Option (List ((Int × Int) × Option Int))
  | [] => some []
  | p :: rest =>
    match ageBarResolve p.1 with
    | none => none
    | some b =>
      match resolveCounts rest with
      | none => none
      | some r => some ((b, p.2) :: r)

/-- The diff mapping the specification's §4.2 `diff` operation describes,
written from the spec's words: for every label present in `e`, the value
`e[label] - start.get(label, 0)`, and nothing else. Used only to compare
the spec's description against the source's `seriesSub`. -/
def specDiff (start e : List (String × Int)) : List (String × Int) :=
  e.map (fun p => (p.1, p.2 - ((lookupKV start p.1).getD 0)))

/-! Helper lemmas about the string order, sorting, grouping and lookup. -/

theorem char_eq_of_toNat_eq {a b : Char} (h : a.toNat = b.toNat) : a = b :=
  Char.eq_of_val_eq (UInt32.eq_of_toBitVec_eq (BitVec.eq_of_toNat_eq h))

theorem charListLe_total : ∀ as bs : List Char,
    charListLe as bs = true ∨ charListLe bs as = true := by
  intro as
  induction as with
  | nil => intro bs; left; rfl
  | cons a as ih =>
    intro bs
    cases bs with
    | nil => right; rfl
    | cons b bs =>
      rcases Nat.lt_trichotomy a.toNat b.toNat with hab | hab | hab
      · left; simp [charListLe, hab]
      · rcases ih bs with h | h
        · left; simp [charListLe, hab, Nat.lt_irrefl, h]
        · right; simp [charListLe, hab.symm, Nat.lt_irrefl, h]
      · right; simp [charListLe, hab]

theorem charListLe_trans : ∀ as bs cs : List Char,
    charListLe as bs = true → charListLe bs cs = true → charListLe as cs = true := by
  intro as
  induction as with
  | nil => intro bs cs _ _; rfl
  | cons a as ih =>
    intro bs cs h1 h2
    cases bs with
    | nil => simp [charListLe] at h1
    | cons b bs =>
      cases cs with
      | nil => simp [charListLe] at h2
      | cons c cs =>
        rcases Nat.lt_trichotomy a.toNat b.toNat with hab | hab | hab
        · rcases Nat.lt_trichotomy b.toNat c.toNat with hbc | hbc | hbc
          · simp [charListLe, show a.toNat < c.toNat by omega]
          · simp [charListLe, show a.toNat < c.toNat by omega]
          · simp [charListLe, show ¬ b.toNat < c.toNat by omega, hbc] at h2
        · rcases Nat.lt_trichotomy b.toNat c.toNat with hbc | hbc | hbc
          · simp [charListLe, show a.toNat < c.toNat by omega]
          · simp only [charListLe, show ¬ a.toNat < b.toNat by omega,
              show ¬ b.toNat < a.toNat by omega, if_neg, ite_false] at h1
            simp only [charListLe, show ¬ b.toNat < c.toNat by omega,
              show ¬ c.toNat < b.toNat by omega, if_neg, ite_false] at h2
            simp only [charListLe, show ¬ a.toNat < c.toNat by omega,
              show ¬ c.toNat < a.toNat by omega, if_neg, ite_false]
            exact ih bs cs h1 h2
          · simp [charListLe, show ¬ b.toNat < c.toNat by omega, hbc] at h2
        · simp [charListLe, show ¬ a.toNat < b.toNat by omega, hab] at h1

theorem charListLe_antisymm : ∀ as bs : List Char,
    charListLe as bs = true → charListLe bs as = true → as = bs := by
  intro as
  induction as with
  | nil =>
    intro bs h1 h2
    cases bs with
    | nil => rfl
    | cons b bs => simp [charListLe] at h2
  | cons a as ih =>
    intro bs h1 h2
    cases bs with
    | nil => simp [charListLe] at h1
    | cons b bs =>
      rcases Nat.lt_trichotomy a.toNat b.toNat with hab | hab | hab
      · simp [charListLe, show ¬ b.toNat < a.toNat by omega, hab] at h2
      · have hc : a = b := char_eq_of_toNat_eq hab
        subst hc
        simp only [charListLe, Nat.lt_irrefl, if_neg, ite_false] at h1 h2
        rw [ih bs h1 h2]
      · simp [charListLe, show ¬ a.toNat < b.toNat by omega, hab] at h1

instance : IsTotal String SLe :=
  ⟨fun a b => charListLe_total a.data b.data⟩

instance : IsTrans String SLe :=
  ⟨fun _ _ _ h1 h2 => charListLe_trans _ _ _ h1 h2⟩

instance : IsAntisymm String SLe := by
  refine ⟨fun a b h1 h2 => ?_⟩
  obtain ⟨la⟩ := a
  obtain ⟨lb⟩ := b
  exact congrArg String.mk (charListLe_antisymm la lb h1 h2)

theorem sortKeys_sorted (l : List String) : List.Sorted SLe (sortKeys l) :=
  List.sorted_insertionSort SLe l

theorem sortKeys_perm (l : List String) : (sortKeys l).Perm l :=
  List.perm_insertionSort SLe l

theorem sortKeys_eq_of_perm {l1 l2 : List String} (h : l1.Perm l2) :
    sortKeys l1 = sortKeys l2 :=
  List.eq_of_perm_of_sorted ((sortKeys_perm l1).trans (h.trans (sortKeys_perm l2).symm))
    (sortKeys_sorted l1) (sortKeys_sorted l2)

theorem groupSum_perm {p q : List (String × Int)} (h : p.Perm q) :
    groupSum p = groupSum q := by
  unfold groupSum
  rw [sortKeys_eq_of_perm ((h.map Prod.fst).dedup)]
  refine List.map_congr_left (fun l _ => ?_)
  rw [((h.filter (fun x => x.1 == l)).map Prod.snd).sum_eq]

theorem lookupKV_map_keys {α : Type} (keys : List String) (f : String → α) (k : String) :
    lookupKV (keys.map (fun x => (x, f x))) k
      = if k ∈ keys then some (f k) else none := by
  induction keys with
  | nil => rfl
  | cons a keys ih =>
    rcases eq_or_ne a k with h | h
    · subst h
      simp [lookupKV, List.find?_cons_of_pos]
    · unfold lookupKV at ih ⊢
      rw [List.map_cons, List.find?_cons_of_neg _ (by simp [h]), ih]
      simp [List.mem_cons, Ne.symm h]

theorem groupSum_lookup (pairs : List (String × Int)) (k : String) :
    lookupKV (groupSum pairs) k
      = if k ∈ pairs.map Prod.fst
        then some (((pairs.filter (fun p => p.1 == k)).map Prod.snd).sum)
        else none := by
  unfold groupSum
  rw [lookupKV_map_keys]
  have hm : (k ∈ sortKeys ((pairs.map Prod.fst).dedup)) ↔ k ∈ pairs.map Prod.fst := by
    rw [(sortKeys_perm ((pairs.map Prod.fst).dedup)).mem_iff, List.mem_dedup]
  rw [if_congr hm rfl rfl]

theorem groupSum_keys (pairs : List (String × Int)) :
    (groupSum pairs).map Prod.fst = sortKeys (pairs.map Prod.fst).dedup := by
  unfold groupSum
  rw [List.map_map]
  simp [Function.comp_def]

theorem pairs_filter_snd {β : Type} (l : List β) (key : β → String) (val : β → Int)
    (k : String) :
    ((l.map (fun r => (key r, val r))).filter (fun p => p.1 == k)).map Prod.snd
      = (l.filter (fun r => key r == k)).map val := by
  induction l with
  | nil => rfl
  | cons a l ih =>
    by_cases h : key a == k
    · simp [List.filter_cons, h, ih]
    · simp [List.filter_cons, h, ih]

/-! The claims. -/

/-- Claim C1, counterexample: the claim says `diff` is defined exactly on the
labels of the end snapshot, with a label missing from the start snapshot
valued `end[label] - 0`, and start-only labels dropped. On the source's
pandas subtraction this is false: with start `{"a": 1}` and end `{"b": 5}`,
the start-only label "a" appears in the result, and the end-only label "b"
is a missing value rather than `5 - 0 = 5`. -/
theorem c1_counterexample :
    seriesSub [("a", 1)] [("b", 5)] = [("a", none), ("b", none)] ∧
    specDiff [("a", 1)] [("b", 5)] = [("b", 5)] ∧
    lookupKV (seriesSub [("a", 1)] [("b", 5)]) "b" ≠ some (some 5) ∧
    lookupKV (seriesSub [("a", 1)] [("b", 5)]) "a" ≠ none := by decide

/-- Claim C1, amended: `diff` (pandas `end - start`) returns a mapping
defined on the union of the two label sets; a label present in both
snapshots maps to `end[label] - start[label]`, and a label present in only
one of the two maps to a missing value (NaN), so start-only labels appear
with a missing value and end-only labels do not receive `end[label] - 0`. -/
theorem c1_diff_characterization (s e : List (String × Int)) (k : String) :
    lookupKV (seriesSub s e) k
      = if k ∈ s.map Prod.fst ∨ k ∈ e.map Prod.fst
        then some (match lookupKV s k, lookupKV e k with
          | some a, some b => some (b - a)
          | _, _ => none)
        else none := by
  unfold seriesSub
  rw [lookupKV_map_keys]
  have hm : (k ∈ sortKeys ((s.map Prod.fst ++ e.map Prod.fst).dedup))
      ↔ (k ∈ s.map Prod.fst ∨ k ∈ e.map Prod.fst) := by
    rw [(sortKeys_perm ((s.map Prod.fst ++ e.map Prod.fst).dedup)).mem_iff,
      List.mem_dedup, List.mem_append]
  rw [if_congr hm rfl rfl]

/-- Claim C2, counterexample: the claim says "Unbekannt" and "unknown"
resolve to two distinct canonical buckets; in `AGE_BAR_DICT` both labels
map to the same interval `(90, 99)`. -/
theorem c2_counterexample : ageBarResolve "Unbekannt" = ageBarResolve "unknown" := by
  decide

/-- Claim C2, amended: resolving "Unbekannt" and resolving "unknown" both
succeed, but they return the same bucket `(90, 99)` rather than two
distinct ones, while a label absent from the table such as
"not-a-real-bucket" fails loudly (Python `KeyError`, the specification's
`ReconciliationError`) instead of being silently ignored. -/
theorem c2_sentinel_resolution :
    ageBarResolve "Unbekannt" = some (90, 99) ∧
    ageBarResolve "unknown" = some (90, 99) ∧
    ageBarResolve "not-a-real-bucket" = none := by decide

/-- Claim C3, counterexample: the claim says an unresolvable age-group label
raises the reconciliation error eagerly during snapshot/diff construction.
In the source, snapshot construction and differencing never consult
`AGE_BAR_DICT`: with rows labelled "not-a-real-bucket" both snapshots and
their diff are built normally, and only the render-stage pass over the diff
keys fails. -/
theorem c3_counterexample :
    death_data [⟨202112, "CHFL", "not-a-real-bucket", 3⟩] START_DATE
        = [("not-a-real-bucket", 3)] ∧
    death_data [⟨202214, "CHFL", "not-a-real-bucket", 10⟩] END_DATE
        = [("not-a-real-bucket", 10)] ∧
    seriesSub [("not-a-real-bucket", 3)] [("not-a-real-bucket", 10)]
        = [("not-a-real-bucket", some 7)] ∧
    resolveCounts [("not-a-real-bucket", some 7)] = none := by decide

/-- Claim C3, amended: the unresolved-label error is deferred to the
presentation stage, not raised during snapshot/diff construction: the
render-stage pass over the diff fails exactly when some diff key is absent
from `AGE_BAR_DICT`, while snapshot construction itself never consults the
table — a surviving row's label enters the snapshot whether or not it
resolves. -/
theorem c3_defer_to_render :
    (∀ counts : List (String × Option Int),
      resolveCounts counts = none ↔ ∃ k ∈ counts.map Prod.fst, ageBarResolve k = none) ∧
    (∀ (r : WeeklyRow) (rows : List WeeklyRow) (d : PyDate),
      r.datum = dateIso d → r.geoRegion = "CHFL" →
        r.altersklasse_covid19 ∈ (death_data (r :: rows) d).map Prod.fst) := by
  constructor
  · intro counts
    induction counts with
    | nil => simp [resolveCounts]
    | cons p rest ih =>
      cases hp : ageBarResolve p.1 with
      | none =>
        refine iff_of_true ?_ ⟨p.1, by simp, hp⟩
        unfold resolveCounts
        rw [hp]
      | some b =>
        cases hr : resolveCounts rest with
        | none =>
          refine iff_of_true ?_ ?_
          · unfold resolveCounts
            rw [hp, hr]
          · obtain ⟨k, hk, hkn⟩ := ih.mp hr
            exact ⟨k, by simp only [List.map_cons, List.mem_cons]; exact Or.inr hk, hkn⟩
        | some res =>
          refine iff_of_false ?_ ?_
          · unfold resolveCounts
            rw [hp, hr]
            simp
          · rintro ⟨k, hk, hkn⟩
            simp only [List.map_cons, List.mem_cons] at hk
            rcases hk with hk | hk
            · rw [hk] at hkn
              rw [hkn] at hp
              exact Option.noConfusion hp
            · have hnone := ih.mpr ⟨k, hk, hkn⟩
              rw [hnone] at hr
              exact Option.noConfusion hr
  · intro r rows d h1 h2
    have hsurv : weeklySurvivors (r :: rows) d = r :: weeklySurvivors rows d := by
      unfold weeklySurvivors
      rw [List.filter_cons]
      simp [h1, h2]
    show r.altersklasse_covid19 ∈ (weeklySnapshot (r :: rows) d).map Prod.fst
    unfold weeklySnapshot
    rw [groupSum_keys, hsurv]
    rw [(sortKeys_perm (((r :: weeklySurvivors rows d).map
      (fun r => (r.altersklasse_covid19, r.sumTotal))).map Prod.fst).dedup).mem_iff,
      List.mem_dedup]
    simp

/-- Claim C3, witness for the amended theorem: a surviving row labelled
"not-a-real-bucket" lands in the death snapshot even though the label does
not resolve. -/
theorem c3_defer_to_render_witness :
    (⟨202112, "CHFL", "not-a-real-bucket", 3⟩ : WeeklyRow).datum = dateIso START_DATE ∧
    (⟨202112, "CHFL", "not-a-real-bucket", 3⟩ : WeeklyRow).geoRegion = "CHFL" ∧
    "not-a-real-bucket"
      ∈ (death_data [⟨202112, "CHFL", "not-a-real-bucket", 3⟩] START_DATE).map Prod.fst :=
  ⟨by decide, rfl,
    c3_defer_to_render.2 ⟨202112, "CHFL", "not-a-real-bucket", 3⟩ [] START_DATE
      (by decide) rfl⟩

/-- Claim C4: snapshot construction groups the rows surviving the date and
region filter by raw age-group label and sums `sumTotal` within each group
— the looked-up count of any label is the sum over all its surviving rows;
concretely, two surviving rows labelled "30 - 39" with counts 5 and 7
yield the single entry 12. -/
theorem c4_group_and_sum (rows : List WeeklyRow) (d : PyDate) (label : String) :
    (lookupKV (death_data rows d) label
      = if label ∈ (weeklySurvivors rows d).map (fun r => r.altersklasse_covid19)
        then some ((((weeklySurvivors rows d).filter
            (fun r => r.altersklasse_covid19 == label)).map (fun r => r.sumTotal)).sum)
        else none) ∧
    lookupKV (death_data
        [⟨202112, "CHFL", "30 - 39", 5⟩, ⟨202112, "CHFL", "30 - 39", 7⟩] START_DATE)
      "30 - 39" = some 12 := by
  constructor
  · show lookupKV (weeklySnapshot rows d) label = _
    unfold weeklySnapshot
    rw [groupSum_lookup, pairs_filter_snd]
    have hkeys : (((weeklySurvivors rows d).map
          (fun r => (r.altersklasse_covid19, r.sumTotal))).map Prod.fst)
        = (weeklySurvivors rows d).map (fun r => r.altersklasse_covid19) := by
      rw [List.map_map]
      rfl
    rw [hkeys]
  · decide

/-- Claim C5: the death and hospitalization snapshots are keyed by the
concatenated ISO week-numbering year and week number, so two dates in the
same ISO week produce identical weekly snapshots, while the symptom
snapshot is keyed by the plain ISO calendar date of the target date. -/
theorem c5_date_keying (wrows : List WeeklyRow) (srows : List SymptomRow) (d1 d2 : PyDate)
    (hy : isoYear d1 = isoYear d2) (hw : isoWeek d1 = isoWeek d2) :
    dateIso d1 = dateIso d2 ∧
    death_data wrows d1 = death_data wrows d2 ∧
    hosp_data wrows d1 = hosp_data wrows d2 ∧
    symptom_data srows d1 = symptomSnapshotByKey srows d1.isoformat := by
  have hk : dateIso d1 = dateIso d2 := by
    unfold dateIso
    rw [hy, hw]
  have hs : weeklySnapshot wrows d1 = weeklySnapshot wrows d2 := by
    unfold weeklySnapshot weeklySurvivors
    rw [hk]
  exact ⟨hk, hs, hs, rfl⟩

/-- Claim C5, witness: 2021-03-23 and 2021-03-24 fall in the same ISO week
(2021-W12) and produce identical weekly snapshots. -/
theorem c5_date_keying_witness :
    (isoYear ⟨2021, 3, 23⟩ = isoYear ⟨2021, 3, 24⟩
      ∧ isoWeek ⟨2021, 3, 23⟩ = isoWeek ⟨2021, 3, 24⟩) ∧
    (dateIso ⟨2021, 3, 23⟩ = dateIso ⟨2021, 3, 24⟩ ∧
     death_data [] ⟨2021, 3, 23⟩ = death_data [] ⟨2021, 3, 24⟩ ∧
     hosp_data [] ⟨2021, 3, 23⟩ = hosp_data [] ⟨2021, 3, 24⟩ ∧
     symptom_data [] ⟨2021, 3, 23⟩
        = symptomSnapshotByKey [] (PyDate.isoformat ⟨2021, 3, 23⟩)) :=
  ⟨⟨by decide, by decide⟩, c5_date_keying [] [] ⟨2021, 3, 23⟩ ⟨2021, 3, 24⟩
    (by decide) (by decide)⟩

/-- Claim C6: snapshot construction filters on exact string equality of the
region field: a row whose region is not "CHFL" — for example "CH" —
contributes to no entry of any snapshot. -/
theorem c6_region_exact (r : WeeklyRow) (s : SymptomRow) (rows : List WeeklyRow)
    (srows : List SymptomRow) (d : PyDate)
    (h1 : r.geoRegion ≠ "CHFL") (h2 : s.geoRegion ≠ "CHFL") :
    death_data (r :: rows) d = death_data rows d ∧
    hosp_data (r :: rows) d = hosp_data rows d ∧
    symptom_data (s :: srows) d = symptom_data srows d := by
  have hw : weeklySnapshot (r :: rows) d = weeklySnapshot rows d := by
    unfold weeklySnapshot weeklySurvivors
    rw [List.filter_cons]
    simp [h1]
  have hs : symptom_data (s :: srows) d = symptom_data srows d := by
    unfold symptom_data
    rw [List.filter_cons]
    simp [h2]
  exact ⟨hw, hw, hs⟩

/-- Claim C6, witness: a row with region "CH" contributes nothing to a
snapshot filtered for "CHFL". -/
theorem c6_region_exact_witness :
    (⟨202112, "CH", "80+", 5⟩ : WeeklyRow).geoRegion ≠ "CHFL" ∧
    (⟨"2021-03-23", "CH", "all", "80+", "all", 5⟩ : SymptomRow).geoRegion ≠ "CHFL" ∧
    (death_data [⟨202112, "CH", "80+", 5⟩] START_DATE = death_data [] START_DATE ∧
     hosp_data [⟨202112, "CH", "80+", 5⟩] START_DATE = hosp_data [] START_DATE ∧
     symptom_data [⟨"2021-03-23", "CH", "all", "80+", "all", 5⟩] START_DATE
        = symptom_data [] START_DATE) :=
  ⟨by decide, by decide,
    c6_region_exact ⟨202112, "CH", "80+", 5⟩ ⟨"2021-03-23", "CH", "all", "80+", "all", 5⟩
      [] [] START_DATE (by decide) (by decide)⟩

/-- Claim C7: the open-ended top buckets "80+" and "75+" resolve to the
closed-above intervals `(80, 89)` and `(75, 89)` with the fixed upper bound
89, not to an unbounded interval. -/
theorem c7_open_top_buckets :
    ageBarResolve "80+" = some (80, 89) ∧ ageBarResolve "75+" = some (75, 89) := by
  decide

/-- Claim C8: snapshot construction yields the same label-to-count mapping
on any permutation of its input rows, for both the weekly and the symptom
series, and hence the diff of such snapshots is invariant to row order. -/
theorem c8_order_invariance (rows1 rows1' rows2 rows2' : List WeeklyRow)
    (srows srows' : List SymptomRow) (d d1 d2 : PyDate)
    (h1 : rows1.Perm rows1') (h2 : rows2.Perm rows2') (hs : srows.Perm srows') :
    death_data rows1 d = death_data rows1' d ∧
    symptom_data srows d = symptom_data srows' d ∧
    seriesSub (death_data rows1 d1) (death_data rows2 d2)
      = seriesSub (death_data rows1' d1) (death_data rows2' d2) := by
  have key : ∀ (a b : List WeeklyRow) (dd : PyDate), a.Perm b →
      weeklySnapshot a dd = weeklySnapshot b dd := by
    intro a b dd hab
    unfold weeklySnapshot weeklySurvivors
    exact groupSum_perm (List.Perm.map _ (List.Perm.filter _ hab))
  have ksym : symptom_data srows d = symptom_data srows' d := by
    unfold symptom_data
    exact groupSum_perm (List.Perm.map _ (List.Perm.filter _ hs))
  refine ⟨key rows1 rows1' d h1, ksym, ?_⟩
  rw [show death_data rows1 d1 = death_data rows1' d1 from key rows1 rows1' d1 h1,
    show death_data rows2 d2 = death_data rows2' d2 from key rows2 rows2' d2 h2]

/-- Claim C8, witness: swapping two concrete rows leaves the snapshot and
diff unchanged. -/
theorem c8_order_invariance_witness :
    ([⟨202112, "CHFL", "80+", 5⟩, ⟨202112, "CHFL", "70 - 79", 7⟩] : List WeeklyRow).Perm
        [⟨202112, "CHFL", "70 - 79", 7⟩, ⟨202112, "CHFL", "80+", 5⟩] ∧
    (death_data [⟨202112, "CHFL", "80+", 5⟩, ⟨202112, "CHFL", "70 - 79", 7⟩] START_DATE
        = death_data [⟨202112, "CHFL", "70 - 79", 7⟩, ⟨202112, "CHFL", "80+", 5⟩]
            START_DATE ∧
     symptom_data [] START_DATE = symptom_data [] START_DATE ∧
     seriesSub
        (death_data [⟨202112, "CHFL", "80+", 5⟩, ⟨202112, "CHFL", "70 - 79", 7⟩]
          START_DATE)
        (death_data [⟨202112, "CHFL", "80+", 5⟩, ⟨202112, "CHFL", "70 - 79", 7⟩]
          END_DATE)
      = seriesSub
          (death_data [⟨202112, "CHFL", "70 - 79", 7⟩, ⟨202112, "CHFL", "80+", 5⟩]
            START_DATE)
          (death_data [⟨202112, "CHFL", "70 - 79", 7⟩, ⟨202112, "CHFL", "80+", 5⟩]
            END_DATE)) :=
  ⟨List.Perm.swap _ _ _,
    c8_order_invariance _ _ _ _ [] [] START_DATE START_DATE END_DATE
      (List.Perm.swap _ _ _) (List.Perm.swap _ _ _) (List.Perm.refl [])⟩

/-- Claim C9: every interval of `AGE_BAR_DICT` has a strictly smaller lower
bound than upper bound, so every resolvable label's bar height
`y_2 - y_1` is nonzero and the render-stage division by it cannot divide by
zero. -/
theorem c9_intervals_nondegenerate (label : String) (y1 y2 : Int)
    (h : ageBarResolve label = some (y1, y2)) : y1 < y2 ∧ y2 - y1 ≠ 0 := by
  have hall : ∀ p ∈ AGE_BAR_DICT, p.2.1 < p.2.2 := by decide
  unfold ageBarResolve at h
  rcases Option.map_eq_some'.mp h with ⟨p, hfind, hsnd⟩
  have hmem := List.mem_of_find?_eq_some hfind
  have hlt := hall p hmem
  rw [hsnd] at hlt
  have h12 : y1 < y2 := hlt
  exact ⟨h12, by omega⟩

/-- Claim C9, witness: the first table entry "0 - 9" satisfies the
nondegeneracy bound. -/
theorem c9_intervals_nondegenerate_witness :
    ageBarResolve "0 - 9" = some (0, 9) ∧ ((0 : Int) < 9 ∧ (9 : Int) - 0 ≠ 0) :=
  ⟨by decide, c9_intervals_nondegenerate "0 - 9" 0 9 (by decide)⟩

/-- Claim C10: the symptom extraction itself restricts rows to
`vaccine == "all"`, `severity == "all"` and `age_group != "all"`: a row
violating any of the three contributes nothing to the symptom snapshot,
even when the caller supplies unfiltered rows. -/
theorem c10_symptom_filter_internal (s : SymptomRow) (srows : List SymptomRow)
    (d : PyDate)
    (h : s.vaccine ≠ "all" ∨ s.age_group = "all" ∨ s.severity ≠ "all") :
    symptom_data (s :: srows) d = symptom_data srows d := by
  unfold symptom_data
  rw [List.filter_cons]
  rcases h with h | h | h
  · simp [h]
  · simp [h]
  · simp [h]

/-- Claim C10, witness: a cross-sectional row with `vaccine = "mRNA"`
(not "all") is excluded by the extraction itself. -/
theorem c10_symptom_filter_internal_witness :
    ((⟨"2021-03-23", "CHFL", "mRNA", "80+", "all", 5⟩ : SymptomRow).vaccine ≠ "all"
      ∨ (⟨"2021-03-23", "CHFL", "mRNA", "80+", "all", 5⟩ : SymptomRow).age_group = "all"
      ∨ (⟨"2021-03-23", "CHFL", "mRNA", "80+", "all", 5⟩ : SymptomRow).severity ≠ "all") ∧
    symptom_data [⟨"2021-03-23", "CHFL", "mRNA", "80+", "all", 5⟩] START_DATE
      = symptom_data [] START_DATE :=
  ⟨Or.inl (by decide),
    c10_symptom_filter_internal ⟨"2021-03-23", "CHFL", "mRNA", "80+", "all", 5⟩ []
      START_DATE (Or.inl (by decide))⟩

/-! Sanity checks of the embedding against known values of the CPython
functions it models. -/

/-- The embedded `isocalendar` agrees with CPython on dates around the
script's range, including a year-straddling ISO week. -/
theorem isocalendar_sanity :
    isocalendar ⟨2021, 3, 23⟩ = (2021, 12, 2) ∧
    isocalendar ⟨2022, 4, 5⟩ = (2022, 14, 2) ∧
    isocalendar ⟨2021, 1, 1⟩ = (2020, 53, 5) ∧
    isocalendar ⟨2021, 12, 31⟩ = (2021, 52, 5) := by decide

/-- The embedded date keys agree with CPython: the weekly key concatenates
ISO year and week, the daily key is the ISO date string. -/
theorem dateKey_sanity :
    dateIso ⟨2021, 3, 23⟩ = 202112 ∧
    dateIso ⟨2021, 1, 1⟩ = 202053 ∧
    PyDate.isoformat ⟨2021, 3, 23⟩ = "2021-03-23" := by decide

/-- The embedded grouping sums duplicate labels and sorts the index, as
pandas `groupby(level=0).sum()` does. -/
theorem groupSum_sanity :
    groupSum [("b", 2), ("a", 1), ("b", 3)] = [("a", 1), ("b", 5)] := by decide

/-- The embedded series subtraction aligns on the union of indexes with
missing values for non-shared labels, as pandas does. -/
theorem seriesSub_sanity :
    seriesSub [("a", 1), ("c", 2)] [("a", 4), ("b", 5)]
      = [("a", some 3), ("b", none), ("c", none)] := by decide
